import Mathlib

/-!
# Verification of the web-ui orchestration layer

A shallow embedding of the repository's glue code, with theorems checking the
natural-language specification against it.  External effects (environment
variables, network connections, the browser-use agent, the LLM SDK calls) are
passed in explicitly as oracles/parameters; Python dictionaries become
association lists, Python truthiness of strings / optional strings is made
explicit, and exceptions become `Except`/`Option` values.
-/

namespace WebUI

/-- Python `os.environ`: a partial map from variable names to values.
`none` means the variable is unset. -/
def Env : Type := String → Option String

/-- Python `os.getenv(key, default)`. -/
def getenvD (env : Env) (key dflt : String) : String :=
  (env key).getD dflt

/-- Python truthiness of a string: `""` is falsy, everything else truthy. -/
def strTruthy (s : String) : Bool := s ≠ ""

/-- Python `a or b` for two strings (`a` if truthy, else `b`). -/
def pyOr (a b : String) : String := if a = "" then b else a

/-- Python `kwargs.get(k)` (no default) followed by `or b`:
`none` and `some ""` are falsy and fall through to `b`. -/
def pyOrOpt (a : Option String) (b : String) : String :=
  match a with
  | none => b
  | some s => if s = "" then b else s

/-- Python `x or y` where both sides are optional strings
(used for `kwargs.get("base_url") or base_url_map[provider]`,
where the map value may be `None`). -/
def pyOrOpt2 (a b : Option String) : Option String :=
  match a with
  | none => b
  | some s => if s = "" then b else some s

/-- Python truthiness of an optional string: `None` and `""` are falsy. -/
def optTruthy : Option String → Bool
  | none => false
  | some s => s ≠ ""

/-- Python `str.upper()` (ASCII, which is all the provider names use). -/
def pyUpper (s : String) : String := String.mk (s.data.map Char.toUpper)

/-! ## `src/utils/llm_provider.py` -/

/-- The keyword-argument bag accepted by `get_llm_model`
(`model_name`, `temperature`, `base_url`, `api_key`); `none` models an absent
keyword.  Temperature is irrelevant to every claim and is not tracked. -/
structure Kwargs where
  api_key : Option String := none
  base_url : Option String := none
  model_name : Option String := none
deriving Repr, DecidableEq

/-- The observable content of a constructor call on one of the external SDK
chat-model classes: which class, and the `model`, `base_url`/`host` and
`api_key` arguments passed to it (`none` when the constructor receives no such
argument). -/
structure ChatModelCall where
  ctor : String
  model : String
  base_url : Option String := none
  api_key : Option String := none
deriving Repr, DecidableEq

/-- The table `config.PROVIDER_DISPLAY_NAMES` lives in `src/utils/config.py`, which is
not part of the sources; the display-name table is therefore an explicit
parameter (`Python dict.get(provider, provider.upper())`). -/
def DisplayNames : Type := String → Option String

/-- Embedding of `llm_provider.get_llm_model`: dispatch on the provider name.  Failure
(`raise ValueError`) is `Except.error` carrying the message. -/
def get_llm_model (dn : DisplayNames) (env : Env) (provider : String)
    (kwargs : Kwargs) : Except String ChatModelCall :=
  -- Handle API key requirement for most providers
  let keyCheck : Except String String :=
    if provider ∉ ["ollama"] then
      let env_var := pyUpper provider ++ "_API_KEY"
      let api_key := pyOr (kwargs.api_key.getD "") (getenvD env env_var "")
      if api_key = "" then
        let provider_display := (dn provider).getD (pyUpper provider)
        .error ("💥 " ++ provider_display ++
          " API key not found! 🔑 Please set the `" ++ env_var ++
          "` environment variable or provide it in the UI.")
      else .ok api_key
    else .ok ""
  match keyCheck with
  | .error e => .error e
  | .ok api_key =>
    if provider = "anthropic" then
      let base_url := pyOrOpt kwargs.base_url
        (getenvD env "ANTHROPIC_ENDPOINT" "https://api.anthropic.com")
      .ok { ctor := "ChatAnthropic"
            model := kwargs.model_name.getD "claude-3-5-sonnet-20241022"
            base_url := some base_url
            api_key := some api_key }
    else if provider = "openai" then
      let base_url := pyOrOpt kwargs.base_url
        (getenvD env "OPENAI_ENDPOINT" "https://api.openai.com/v1")
      .ok { ctor := "ChatOpenAI"
            model := kwargs.model_name.getD "gpt-4o"
            base_url := some base_url
            api_key := some api_key }
    else if provider = "google" then
      .ok { ctor := "ChatGoogle"
            model := kwargs.model_name.getD "gemini-2.0-flash-exp"
            base_url := none
            api_key := some api_key }
    else if provider = "groq" then
      let base_url := pyOrOpt kwargs.base_url
        (getenvD env "GROQ_ENDPOINT" "https://api.groq.com/openai/v1")
      .ok { ctor := "ChatGroq"
            model := kwargs.model_name.getD "llama-3.1-8b-instant"
            base_url := some base_url
            api_key := some api_key }
    else if provider = "ollama" then
      let host := pyOrOpt kwargs.base_url
        (getenvD env "OLLAMA_ENDPOINT" "http://localhost:11434")
      .ok { ctor := "ChatOllama"
            model := kwargs.model_name.getD "qwen2.5:7b"
            base_url := some host
            api_key := none }
    else if provider = "azure_openai" then
      let base_url := pyOrOpt kwargs.base_url
        (getenvD env "AZURE_OPENAI_ENDPOINT" "")
      if base_url = "" then
        .error "Azure OpenAI endpoint is required"
      else
        .ok { ctor := "ChatAzureOpenAI"
              model := kwargs.model_name.getD "gpt-4o"
              base_url := some base_url
              api_key := some api_key }
    else if provider = "deepseek" then
      let base_url := pyOrOpt kwargs.base_url
        (getenvD env "DEEPSEEK_ENDPOINT" "https://api.deepseek.com/v1")
      .ok { ctor := "ChatDeepSeek"
            model := kwargs.model_name.getD "deepseek-chat"
            base_url := some base_url
            api_key := some api_key }
    -- For providers not directly supported by browser-use, use
    -- OpenAI-compatible API
    else if provider ∈ ["grok", "alibaba", "moonshot", "unbound",
                        "siliconflow", "modelscope"] then
      let base_url_map : String → Option String := fun p =>
        if p = "grok" then some (getenvD env "GROK_ENDPOINT" "https://api.x.ai/v1")
        else if p = "alibaba" then
          some (getenvD env "ALIBABA_ENDPOINT"
            "https://dashscope.aliyuncs.com/compatible-mode/v1")
        else if p = "moonshot" then env "MOONSHOT_ENDPOINT"
        else if p = "unbound" then
          some (getenvD env "UNBOUND_ENDPOINT" "https://api.getunbound.ai")
        else if p = "siliconflow" then some (getenvD env "SILICONFLOW_ENDPOINT" "")
        else some (getenvD env "MODELSCOPE_ENDPOINT" "")
      let model_defaults : String → String := fun p =>
        if p = "grok" then "grok-3"
        else if p = "alibaba" then "qwen-plus"
        else if p = "moonshot" then "moonshot-v1-32k-vision-preview"
        else if p = "unbound" then "gpt-4o-mini"
        else if p = "siliconflow" then "Qwen/QwQ-32B"
        else "Qwen/QwQ-32B"
      let base_url := pyOrOpt2 kwargs.base_url (base_url_map provider)
      if optTruthy base_url = false then
        .error (provider ++ " endpoint is required")
      else
        .ok { ctor := "ChatOpenAI"
              model := kwargs.model_name.getD (model_defaults provider)
              base_url := base_url
              api_key := some api_key }
    else
      .error ("Unsupported provider: " ++ provider ++
        ". Supported providers: anthropic, openai, google, groq, ollama, azure_openai, deepseek, grok, alibaba, moonshot, unbound, siliconflow, modelscope")

/-- The supported provider set listed in the source's error message. -/
def supportedProviders : List String :=
  ["anthropic", "openai", "google", "groq", "ollama", "azure_openai",
   "deepseek", "grok", "alibaba", "moonshot", "unbound", "siliconflow",
   "modelscope"]

/-- The environment-or-default endpoint value that each provider branch of
`get_llm_model` falls back to for its base URL when the `base_url` keyword is
absent or empty (the defaults are the URL literals of the source). -/
def endpoint_env_or_default (env : Env) (provider : String) : String :=
  if provider = "anthropic" then
    getenvD env "ANTHROPIC_ENDPOINT" "https://api.anthropic.com"
  else if provider = "openai" then
    getenvD env "OPENAI_ENDPOINT" "https://api.openai.com/v1"
  else if provider = "groq" then
    getenvD env "GROQ_ENDPOINT" "https://api.groq.com/openai/v1"
  else if provider = "ollama" then
    getenvD env "OLLAMA_ENDPOINT" "http://localhost:11434"
  else if provider = "azure_openai" then
    getenvD env "AZURE_OPENAI_ENDPOINT" ""
  else if provider = "deepseek" then
    getenvD env "DEEPSEEK_ENDPOINT" "https://api.deepseek.com/v1"
  else if provider = "grok" then
    getenvD env "GROK_ENDPOINT" "https://api.x.ai/v1"
  else if provider = "alibaba" then
    getenvD env "ALIBABA_ENDPOINT" "https://dashscope.aliyuncs.com/compatible-mode/v1"
  else if provider = "moonshot" then
    getenvD env "MOONSHOT_ENDPOINT" ""
  else if provider = "unbound" then
    getenvD env "UNBOUND_ENDPOINT" "https://api.getunbound.ai"
  else if provider = "siliconflow" then
    getenvD env "SILICONFLOW_ENDPOINT" ""
  else if provider = "modelscope" then
    getenvD env "MODELSCOPE_ENDPOINT" ""
  else ""

/-- Whether `pat` is a prefix of some suffix of `l`. -/
def containsAux (pat : List Char) : List Char → Bool
  | [] => pat.isPrefixOf ([] : List Char)
  | c :: t => pat.isPrefixOf (c :: t) || containsAux pat t

/-- Whether `pat` occurs as a contiguous substring of `s`. -/
def strContains (s pat : String) : Bool := containsAux pat.data s.data

/-- The exact message raised by `get_llm_model` when the API key is missing. -/
def missingKeyMsg (dn : DisplayNames) (provider : String) : String :=
  "💥 " ++ ((dn provider).getD (pyUpper provider)) ++
    " API key not found! 🔑 Please set the `" ++ (pyUpper provider ++ "_API_KEY") ++
    "` environment variable or provide it in the UI."

/-- The exact message raised by `get_llm_model` for an unsupported provider. -/
def unsupportedMsg (provider : String) : String :=
  "Unsupported provider: " ++ provider ++
    ". Supported providers: anthropic, openai, google, groq, ollama, azure_openai, deepseek, grok, alibaba, moonshot, unbound, siliconflow, modelscope"

/-! ## `src/utils/mcp_client.py` -/

/-- Python `d[k] = v` on an insertion-ordered dictionary modeled as an
association list: overwrite in place if the key exists, else append. -/
def dictSet {α : Type} (k : String) (v : α) :
    List (String × α) → List (String × α)
  | [] => [(k, v)]
  | (k2, v2) :: t => if k2 = k then (k, v) :: t else (k2, v2) :: dictSet k v t

/-- Python `d.get(k)` / `k in d` on the same model. -/
def dictGet {α : Type} (k : String) : List (String × α) → Option α
  | [] => none
  | (k2, v) :: t => if k2 = k then some v else dictGet k t

/-- One entry of the MCP server-configuration dictionary as
`setup_mcp_servers` reads it: `server_config.get("command")`,
`.get("args", [])`, `.get("env", {})`. -/
structure ServerConfig where
  command : Option String := none
  args : List String := []
  env : List (String × String) := []
deriving Repr, DecidableEq

/-- The configuration dictionary passed to `setup_mcp_servers`: either a flat
dictionary of server entries, or a dictionary carrying them under the
`mcpServers` key.  A wrapped dictionary is never Python-falsy, because it
contains at least that key. -/
inductive MCPConfig
  | flat (servers : List (String × ServerConfig))
  | wrapped (servers : List (String × ServerConfig))
deriving Repr, DecidableEq

/-- Python truthiness test `if not mcp_server_config` on the outer dict. -/
def MCPConfig.pyFalsy : MCPConfig → Bool
  | .flat s => s.isEmpty
  | .wrapped _ => false

/-- The `servers_config` the loop iterates: the inner dict when nested under
`mcpServers`, the dict itself otherwise. -/
def MCPConfig.servers : MCPConfig → List (String × ServerConfig)
  | .flat s => s
  | .wrapped s => s

/-- The `MCPClient` handle exactly as `setup_mcp_servers` constructs it. -/
structure MCPClient where
  server_name : String
  command : String
  args : List String
  env : List (String × String)
deriving Repr, DecidableEq

/-- The mutable attributes of `MCPManager`. -/
structure MCPManager where
  clients : List (String × MCPClient) := []
  connected_servers : List String := []
deriving Repr, DecidableEq

/-- Embedding of `MCPManager.__init__`. -/
def MCPManager.init : MCPManager := {}

/-- Whether `MCPClient(server_name, command, args, env)` + `client.connect()`
succeeds: the outcome of the external subprocess/protocol handshake. -/
def ConnectOracle : Type := String → ServerConfig → Bool

/-- Which `client.disconnect()` calls raise (the external call's outcome). -/
def DisconnectOracle : Type := String → Bool

/-- Embedding of `MCPManager.disconnect_all`: call `disconnect` on every client — each
failure is caught per client and only logged, so the outcome oracle has no
effect on the state — then `clear()` both structures. -/
def MCPManager.disconnect_all (_dr : DisconnectOracle) (_st : MCPManager) :
    MCPManager :=
  { clients := [], connected_servers := [] }

/-- The body of the connection loop of `setup_mcp_servers` for one
`(server_name, server_config)` item: skip when no command is given
(Python-falsy `command`), `continue` when construction/connect raises,
otherwise store the client and append the server name. -/
def connectStep (connectOk : ConnectOracle) (acc : MCPManager)
    (p : String × ServerConfig) : MCPManager :=
  match p.2.command with
  | none => acc
  | some c =>
    if c = "" then acc
    else if connectOk p.1 p.2 then
      { clients := dictSet p.1 ⟨p.1, c, p.2.args, p.2.env⟩ acc.clients,
        connected_servers := acc.connected_servers ++ [p.1] }
    else acc

/-- Embedding of `MCPManager.setup_mcp_servers`. -/
def MCPManager.setup_mcp_servers (connectOk : ConnectOracle)
    (dr : DisconnectOracle) (st : MCPManager) (cfg : MCPConfig) :
    Bool × MCPManager :=
  if cfg.pyFalsy then (false, st)
  else
    let st1 := st.disconnect_all dr
    let st2 := cfg.servers.foldl (connectStep connectOk) st1
    (decide (st2.connected_servers.length > 0), st2)

/-- Embedding of `MCPManager.get_connected_servers` (returns a copy of the list). -/
def MCPManager.get_connected_servers (st : MCPManager) : List String :=
  st.connected_servers

/-- Embedding of `MCPManager.is_connected`: membership in `connected_servers`. -/
def MCPManager.is_connected (st : MCPManager) (server_name : String) : Bool :=
  st.connected_servers.contains server_name

/-- A configuration entry that the loop actually connects: a Python-truthy
`command` and a successful construction + connect. -/
def entryConnects (connectOk : ConnectOracle) (p : String × ServerConfig) :
    Bool :=
  optTruthy p.2.command && connectOk p.1 p.2

/-- The invariant of C10: `connected_servers` holds exactly the keys of
`clients`. -/
def managerInv (st : MCPManager) : Prop :=
  ∀ n, n ∈ st.connected_servers ↔ (dictGet n st.clients).isSome = true

/-- The tools a connected MCP client exposes, after the external library
applies the optional tool filter — an input of the model, since
`client.register_to_controller` belongs to browser-use. -/
def ClientToolsOracle : Type := MCPClient → Option (List String) → List String

/-- The body of the registration loop for one `(server_name, client)` item:
calling the external `register_to_controller` with prefix `mcp_{server_name}_`
(failures are caught per server and skipped) makes the library register each
surviving tool under the prefixed name, and `total_tools` counts one per
successful server. -/
def registerToolsStep (clientTools : ClientToolsOracle)
    (regRaises : String → Bool) (tool_filter : Option (List String))
    (acc : Nat × List String) (p : String × MCPClient) : Nat × List String :=
  if regRaises p.1 then acc
  else
    (acc.1 + 1,
     acc.2 ++ (clientTools p.2 tool_filter).map
       (fun t => "mcp_" ++ p.1 ++ "_" ++ t))

/-- Embedding of `MCPManager.register_tools_to_controller`: run the
registration loop over the stored clients; the result is the per-server
success count and the controller's registered action names. -/
def MCPManager.register_tools_to_controller (clientTools : ClientToolsOracle)
    (regRaises : String → Bool) (st : MCPManager)
    (controller : List String) (tool_filter : Option (List String)) :
    Nat × List String :=
  st.clients.foldl (registerToolsStep clientTools regRaises tool_filter)
    (0, controller)

/-! ## `src/controller/custom_controller.py` -/

/-- A tool exposed by an MCP server, as `register_mcp_tools` consumes it
(`tool.name`, `tool.description`). -/
structure MCPTool where
  name : String
  description : String := ""
deriving Repr, DecidableEq

/-- The `RegisteredAction(name, description, function, param_model)` record
stored into the controller's registry (the function is the tool itself). -/
structure RegisteredAction where
  name : String
  description : String
  tool : MCPTool
deriving Repr, DecidableEq

/-- Embedding of `CustomController.register_mcp_tools`: when an MCP client is present,
walk `server_name_to_tools` and store each tool into
`self.registry.registry.actions` under `mcp.{server_name}.{tool.name}`;
with no client only a warning is logged. -/
def mcpActionInsert (server_name : String)
    (acts : List (String × RegisteredAction)) (tool : MCPTool) :
    List (String × RegisteredAction) :=
  let tool_name := "mcp." ++ server_name ++ "." ++ tool.name
  dictSet tool_name ⟨tool_name, tool.description, tool⟩ acts

def register_mcp_tools
    (server_name_to_tools : Option (List (String × List MCPTool)))
    (actions : List (String × RegisteredAction)) :
    List (String × RegisteredAction) :=
  match server_name_to_tools with
  | none => actions
  | some m =>
    m.foldl (fun acts p => p.2.foldl (mcpActionInsert p.1) acts) actions

/-! ## `src/agent/deep_research/deep_research_agent.py`

The agent's field I/O and the two external calls (the browser-use agent run
and the LLM invocation) are parameters; `threading.Event` objects live in an
explicit store so that object identity — which event `stop()` touches versus
which event the browser task checks — is tracked faithfully.  Local file
writes are modeled as succeeding and recorded in a write trace (the
`write_file_content` wrapper catches its own I/O errors and the caller
ignores its return value, so the interesting behavior is the trace). -/

def REPORT_FILENAME : String := "report.md"

/-- Python `os.path.join(dir, name)` for a relative `name`. -/
def pathJoin (dir name : String) : String :=
  if dir = "" then name
  else if dir.endsWith "/" then dir ++ name
  else dir ++ "/" ++ name

/-- Python `str(x)` for an optional string (`None` prints as `"None"`). -/
def pyStr : Option String → String
  | none => "None"
  | some s => s

/-- The mutable state outside the agent object: the store of
`threading.Event` objects (index ↦ is-set) and the module-level
`_AGENT_STOP_FLAGS` table. -/
structure World where
  events : List Bool := []
  agentStopFlags : List (String × Bool) := []
deriving Repr, DecidableEq

/-- Python `threading.Event()`: allocate a fresh, unset event. -/
def World.newEvent (w : World) : Nat × World :=
  (w.events.length, { w with events := w.events ++ [false] })

/-- Python `event.is_set()`. -/
def World.eventIsSet (w : World) (e : Nat) : Bool := w.events.getD e false

/-- Python `event.set()`. -/
def World.setEvent (w : World) (e : Nat) : World :=
  { w with events := w.events.set e true }

/-- The attributes of `DeepResearchAgent` (`__init__` defaults; the `llm` and
`browser_config` fields only feed the external calls and carry no state that
any claim mentions). -/
structure DeepResearchAgent where
  stopped : Bool := false
  current_task_id : Option String := none
  stop_event : Option Nat := none
deriving Repr, DecidableEq

/-- Embedding of `DeepResearchAgent.__init__`. -/
def DeepResearchAgent.init : DeepResearchAgent := {}

/-- Embedding of `DeepResearchAgent.stop`: set `stopped`, record a stop flag under the
current task id when there is one, and set `self.stop_event` when one is
assigned. -/
def DeepResearchAgent.stop (ag : DeepResearchAgent) (w : World) :
    DeepResearchAgent × World :=
  let ag2 := { ag with stopped := true }
  let w2 := match ag2.current_task_id with
    | some t => { w with agentStopFlags := dictSet t true w.agentStopFlags }
    | none => w
  let w3 := match ag2.stop_event with
    | some e => w2.setEvent e
    | none => w2
  (ag2, w3)

/-- The dictionary returned by `run_single_browser_task`
(`result` is `None` in the cancelled case). -/
structure TaskResult where
  query : String
  result : Option String
  status : String
deriving Repr, DecidableEq

/-- Embedding of `run_single_browser_task`: `setup` is the outcome of the browser-profile
/ controller / agent construction preceding the stop check, `runResult` the
outcome of `browser_agent.run()`; any exception from either is caught and
converted to a `failed` result.  The stop check reads `stop_event` in the
world `w` as it is at that moment.  (The `_BROWSER_AGENT_INSTANCES`
store/delete bookkeeping around the run has no effect on the returned
value and is not tracked.) -/
def run_single_browser_task (w : World) (task_query : String)
    (stop_event : Nat) (setup : Except String Unit)
    (runResult : Except String String) : TaskResult :=
  match setup with
  | .error e =>
    { query := task_query, result := some ("Error: " ++ e), status := "failed" }
  | .ok _ =>
    if w.eventIsSet stop_event then
      { query := task_query, result := none, status := "cancelled" }
    else
      match runResult with
      | .ok r => { query := task_query, result := some r, status := "completed" }
      | .error e =>
        { query := task_query, result := some ("Error: " ++ e), status := "failed" }

/-- Embedding of `DeepResearchAgent._conduct_browser_research`: create a fresh local stop
event and run the browser task with it; return `result.get("result", ...)`
(the key is always present, so this is the task's `result` value, possibly
`None`).  `stopCalledBetween` is the one interleaving the cancellation claim
is about: whether another thread calls this agent's `stop()` between the
event's creation and the task's stop check. -/
def DeepResearchAgent.conduct_browser_research (ag : DeepResearchAgent)
    (w : World) (query : String) (stopCalledBetween : Bool)
    (setup : Except String Unit) (runResult : Except String String) :
    Option String × DeepResearchAgent × World :=
  let (eid, w1) := w.newEvent
  let (ag2, w2) := if stopCalledBetween then ag.stop w1 else (ag, w1)
  let r := run_single_browser_task w2
    ("Research and gather comprehensive information about: " ++ query)
    eid setup runResult
  (r.result, ag2, w2)

/-- Embedding of `DeepResearchAgent._generate_report`: the LLM call either returns the
report content, or its exception is caught and turned into an error report
embedding the error and the raw research data. -/
def DeepResearchAgent.generate_report (research_data : Option String)
    (llmResponse : Except String String) : String :=
  match llmResponse with
  | .ok r => r
  | .error e =>
    "# Research Report\n\n## Error\nFailed to generate report: " ++ e ++
      "\n\n## Raw Data\n" ++ pyStr research_data

/-- Embedding of `write_file_content` on the success path: record the write in the trace
and return the success message (its `except` branch concerns local file I/O,
which this model takes as reliable). -/
def write_file_content (files : List String) (file_path _content : String) :
    String × List String :=
  ("Successfully wrote to " ++ file_path, files ++ [file_path])

/-- The outcome of `DeepResearchAgent.research`: the returned path or the
re-raised exception, the file-write trace, and the final agent/world. -/
structure ResearchOutcome where
  result : Except String String
  files : List String
  agent : DeepResearchAgent
  world : World
deriving Repr

/-- Embedding of `DeepResearchAgent.research`: make the output directory (`mkdirs` is the
outcome of `os.makedirs`, the one call in the `try` body whose exception the
`except` block re-raises — the two research steps catch their own), set the
task id, run the browser step then the report step, write the report, and
return its path; the `finally` clears the task id. -/
def DeepResearchAgent.research (ag : DeepResearchAgent) (w : World)
    (files : List String) (query output_dir task_id : String)
    (mkdirs : Except String Unit) (stopCalledBetween : Bool)
    (setup : Except String Unit) (runResult : Except String String)
    (llmResponse : Except String String) : ResearchOutcome :=
  match mkdirs with
  | .error e =>
    { result := .error e, files := files,
      agent := { ag with current_task_id := none }, world := w }
  | .ok _ =>
    let ag1 := { ag with current_task_id := some task_id }
    let (browser_results, ag2, w2) :=
      ag1.conduct_browser_research w query stopCalledBetween setup runResult
    let report_content := DeepResearchAgent.generate_report browser_results llmResponse
    let report_path := pathJoin output_dir REPORT_FILENAME
    let (_, files2) := write_file_content files report_path report_content
    { result := .ok report_path, files := files2,
      agent := { ag2 with current_task_id := none }, world := w2 }

end WebUI

namespace WebUI

example :
    get_llm_model (fun _ => none) (fun _ => none) "foo" {} =
      .error "💥 FOO API key not found! 🔑 Please set the `FOO_API_KEY` environment variable or provide it in the UI." := by
  rfl

example :
    (get_llm_model (fun _ => none) (fun _ => none) "ollama" {}).isOk = true := by
  rfl

example :
    get_llm_model (fun _ => none) (fun _ => none) "foo"
      { api_key := some "k" } =
      .error "Unsupported provider: foo. Supported providers: anthropic, openai, google, groq, ollama, azure_openai, deepseek, grok, alibaba, moonshot, unbound, siliconflow, modelscope" := by
  rfl

example :
    get_llm_model (fun _ => none) (fun v => if v = "ANTHROPIC_API_KEY" then some "ek" else none)
      "anthropic" { base_url := some "https://x" } =
      .ok { ctor := "ChatAnthropic", model := "claude-3-5-sonnet-20241022",
            base_url := some "https://x", api_key := some "ek" } := by
  rfl

/-- C3: for every provider other than `ollama`, if neither the `api_key`
keyword argument nor the environment variable `{PROVIDER}_API_KEY` supplies a
non-empty key, `get_llm_model` raises a `ValueError` whose message names the
expected environment variable `{PROVIDER}_API_KEY` (the message contains it
verbatim between backticks); and for `ollama` no API key is required:
the call succeeds with no key supplied from anywhere. -/
theorem get_llm_model_missing_key_raises
    (dn : DisplayNames) (env : Env) (provider : String) (kwargs : Kwargs)
    (hp : provider ≠ "ollama")
    (hkw : kwargs.api_key.getD "" = "")
    (henv : getenvD env (pyUpper provider ++ "_API_KEY") "" = "") :
    (get_llm_model dn env provider kwargs = .error (missingKeyMsg dn provider) ∧
      ∃ pre post, missingKeyMsg dn provider =
        pre ++ (pyUpper provider ++ "_API_KEY") ++ post) ∧
    ∀ dn2 env2 kwargs2, (get_llm_model dn2 env2 "ollama" kwargs2).isOk = true := by
  refine ⟨⟨?_, ?_⟩, fun dn2 env2 kwargs2 => rfl⟩
  · simp only [get_llm_model, missingKeyMsg, List.mem_singleton, hp,
      not_false_iff, if_true, pyOr, hkw, henv, if_pos rfl, ite_true]
  · refine ⟨"💥 " ++ ((dn provider).getD (pyUpper provider)) ++
      " API key not found! 🔑 Please set the `",
      "` environment variable or provide it in the UI.", ?_⟩
    simp only [missingKeyMsg, String.append_assoc]

/-- Witness for C3: the provider `openai` with no key anywhere raises the
message naming `OPENAI_API_KEY`. -/
theorem get_llm_model_missing_key_raises_witness :
    get_llm_model (fun _ => none) (fun _ => none) "openai" {} =
      .error (missingKeyMsg (fun _ => none) "openai") ∧
    ∃ pre post, missingKeyMsg (fun _ => none) "openai" =
      pre ++ (pyUpper "openai" ++ "_API_KEY") ++ post :=
  (get_llm_model_missing_key_raises (fun _ => none) (fun _ => none) "openai" {}
    (by decide) rfl rfl).1

/-- C5 counterexample: for the unsupported provider name `not_a_provider`
with no API key supplied anywhere, `get_llm_model` raises the
missing-API-key `ValueError`, whose message does not list the supported
provider set — the API-key check precedes the provider dispatch. -/
theorem get_llm_model_unsupported_counterexample :
    get_llm_model (fun _ => none) (fun _ => none) "not_a_provider" {} =
      .error (missingKeyMsg (fun _ => none) "not_a_provider") ∧
    strContains (missingKeyMsg (fun _ => none) "not_a_provider")
      "Supported providers" = false := by
  exact ⟨rfl, by decide⟩

/-- C5 (amended): for every provider name outside the supported set,
*provided an API key is available for it* (the `api_key` keyword or the
`{PROVIDER}_API_KEY` environment variable is non-empty — otherwise the
missing-key error fires first), `get_llm_model` raises a `ValueError`
whose message lists the supported provider set. -/
theorem get_llm_model_unsupported_raises
    (dn : DisplayNames) (env : Env) (provider : String) (kwargs : Kwargs)
    (hp : provider ∉ supportedProviders)
    (hkey : pyOr (kwargs.api_key.getD "")
      (getenvD env (pyUpper provider ++ "_API_KEY") "") ≠ "") :
    get_llm_model dn env provider kwargs = .error (unsupportedMsg provider) := by
  simp only [supportedProviders, List.mem_cons, List.not_mem_nil, or_false,
    not_or] at hp
  obtain ⟨h1, h2, h3, h4, h5, h6, h7, h8, h9, h10, h11, h12, h13⟩ := hp
  simp only [get_llm_model, unsupportedMsg, List.mem_singleton, List.mem_cons,
    List.not_mem_nil, or_false, h1, h2, h3, h4, h5, h6, h7, h8, h9, h10, h11,
    h12, h13, hkey, not_false_iff, if_true, if_false, ite_false, ite_true,
    or_self, if_neg hkey]

/-- Witness for the amended C5: `not_a_provider` with an explicit key raises
the message listing the supported set. -/
theorem get_llm_model_unsupported_raises_witness :
    get_llm_model (fun _ => none) (fun _ => none) "not_a_provider"
      { api_key := some "k" } = .error (unsupportedMsg "not_a_provider") :=
  get_llm_model_unsupported_raises (fun _ => none) (fun _ => none)
    "not_a_provider" { api_key := some "k" } (by decide) (by decide)

/-- A truthy result of `x or y` on optional strings is the keyword when the
keyword is truthy, else the fallback. -/
theorem pyOrOpt2_some (a b : Option String) (u : String)
    (h : pyOrOpt2 a b = some u) : u = pyOrOpt a (b.getD "") := by
  cases a with
  | none => simp [pyOrOpt2] at h; simp [pyOrOpt, h]
  | some s =>
    by_cases hs : s = ""
    · simp [pyOrOpt2, hs] at h; simp [pyOrOpt, hs, h]
    · simp [pyOrOpt2, hs] at h; subst h; simp [pyOrOpt, hs]

/-- C8: for every supported provider, whatever constructor call
`get_llm_model` returns, the API key it passes is the `api_key` keyword when
that is non-empty and otherwise the `{PROVIDER}_API_KEY` environment value,
and the base URL / host it passes is the `base_url` keyword when that is
non-empty and otherwise the `{PROVIDER}_ENDPOINT` environment value or the
built-in default URL (`endpoint_env_or_default`).  Constructors that take no
such argument (`ChatGoogle` has no base URL, `ChatOllama` no API key) are
covered vacuously: neither the keyword nor the environment reaches them. -/
theorem get_llm_model_kwarg_precedence
    (dn : DisplayNames) (env : Env) (provider : String) (kwargs : Kwargs)
    (m : ChatModelCall)
    (hp : provider ∈ supportedProviders)
    (hok : get_llm_model dn env provider kwargs = .ok m) :
    (∀ u, m.base_url = some u →
       u = pyOrOpt kwargs.base_url (endpoint_env_or_default env provider)) ∧
    (∀ k, m.api_key = some k →
       k = pyOr (kwargs.api_key.getD "")
         (getenvD env (pyUpper provider ++ "_API_KEY") "")) := by
  simp only [supportedProviders] at hp
  fin_cases hp
  -- anthropic
  · simp [get_llm_model] at hok
    split at hok
    · exact absurd hok (by simp)
    · rename_i api_key heq
      split at heq
      · exact absurd heq (by simp)
      · injection heq with hkey
        subst hkey
        injection hok with hm
        subst hm
        exact ⟨fun u hu => (Option.some.inj hu).symm,
               fun k hk => (Option.some.inj hk).symm⟩
  -- openai
  · simp [get_llm_model] at hok
    split at hok
    · exact absurd hok (by simp)
    · rename_i api_key heq
      split at heq
      · exact absurd heq (by simp)
      · injection heq with hkey
        subst hkey
        injection hok with hm
        subst hm
        exact ⟨fun u hu => (Option.some.inj hu).symm,
               fun k hk => (Option.some.inj hk).symm⟩
  -- google: the constructor receives no base URL
  · simp [get_llm_model] at hok
    split at hok
    · exact absurd hok (by simp)
    · rename_i api_key heq
      split at heq
      · exact absurd heq (by simp)
      · injection heq with hkey
        subst hkey
        injection hok with hm
        subst hm
        exact ⟨fun u hu => absurd hu (by simp),
               fun k hk => (Option.some.inj hk).symm⟩
  -- groq
  · simp [get_llm_model] at hok
    split at hok
    · exact absurd hok (by simp)
    · rename_i api_key heq
      split at heq
      · exact absurd heq (by simp)
      · injection heq with hkey
        subst hkey
        injection hok with hm
        subst hm
        exact ⟨fun u hu => (Option.some.inj hu).symm,
               fun k hk => (Option.some.inj hk).symm⟩
  -- ollama: no key check, the constructor receives no API key
  · simp [get_llm_model] at hok
    obtain rfl := hok
    exact ⟨fun u hu => (Option.some.inj hu).symm,
           fun k hk => absurd hk (by simp)⟩
  -- azure_openai: extra guard on the endpoint being non-empty
  · simp [get_llm_model] at hok
    split at hok
    · exact absurd hok (by simp)
    · rename_i api_key heq
      split at heq
      · exact absurd heq (by simp)
      · injection heq with hkey
        subst hkey
        split at hok
        · exact absurd hok (by simp)
        · injection hok with hm
          subst hm
          exact ⟨fun u hu => (Option.some.inj hu).symm,
                 fun k hk => (Option.some.inj hk).symm⟩
  -- deepseek
  · simp [get_llm_model] at hok
    split at hok
    · exact absurd hok (by simp)
    · rename_i api_key heq
      split at heq
      · exact absurd heq (by simp)
      · injection heq with hkey
        subst hkey
        injection hok with hm
        subst hm
        exact ⟨fun u hu => (Option.some.inj hu).symm,
               fun k hk => (Option.some.inj hk).symm⟩
  -- grok
  · simp [get_llm_model] at hok
    split at hok
    · exact absurd hok (by simp)
    · rename_i api_key heq
      split at heq
      · exact absurd heq (by simp)
      · injection heq with hkey
        subst hkey
        split at hok
        · exact absurd hok (by simp)
        · injection hok with hm
          subst hm
          exact ⟨fun u hu => pyOrOpt2_some _ _ _ hu,
                 fun k hk => (Option.some.inj hk).symm⟩
  -- alibaba
  · simp [get_llm_model] at hok
    split at hok
    · exact absurd hok (by simp)
    · rename_i api_key heq
      split at heq
      · exact absurd heq (by simp)
      · injection heq with hkey
        subst hkey
        split at hok
        · exact absurd hok (by simp)
        · injection hok with hm
          subst hm
          exact ⟨fun u hu => pyOrOpt2_some _ _ _ hu,
                 fun k hk => (Option.some.inj hk).symm⟩
  -- moonshot: its endpoint environment variable has no default
  · simp [get_llm_model] at hok
    split at hok
    · exact absurd hok (by simp)
    · rename_i api_key heq
      split at heq
      · exact absurd heq (by simp)
      · injection heq with hkey
        subst hkey
        split at hok
        · exact absurd hok (by simp)
        · injection hok with hm
          subst hm
          exact ⟨fun u hu => pyOrOpt2_some _ _ _ hu,
                 fun k hk => (Option.some.inj hk).symm⟩
  -- unbound
  · simp [get_llm_model] at hok
    split at hok
    · exact absurd hok (by simp)
    · rename_i api_key heq
      split at heq
      · exact absurd heq (by simp)
      · injection heq with hkey
        subst hkey
        split at hok
        · exact absurd hok (by simp)
        · injection hok with hm
          subst hm
          exact ⟨fun u hu => pyOrOpt2_some _ _ _ hu,
                 fun k hk => (Option.some.inj hk).symm⟩
  -- siliconflow
  · simp [get_llm_model] at hok
    split at hok
    · exact absurd hok (by simp)
    · rename_i api_key heq
      split at heq
      · exact absurd heq (by simp)
      · injection heq with hkey
        subst hkey
        split at hok
        · exact absurd hok (by simp)
        · injection hok with hm
          subst hm
          exact ⟨fun u hu =>
              pyOrOpt2_some _ (some (getenvD env "SILICONFLOW_ENDPOINT" "")) _ hu,
                 fun k hk => (Option.some.inj hk).symm⟩
  -- modelscope
  · simp [get_llm_model] at hok
    split at hok
    · exact absurd hok (by simp)
    · rename_i api_key heq
      split at heq
      · exact absurd heq (by simp)
      · injection heq with hkey
        subst hkey
        split at hok
        · exact absurd hok (by simp)
        · injection hok with hm
          subst hm
          exact ⟨fun u hu =>
              pyOrOpt2_some _ (some (getenvD env "MODELSCOPE_ENDPOINT" "")) _ hu,
                 fun k hk => (Option.some.inj hk).symm⟩

/-- C9: after every call to `disconnect_all`, the `clients` dictionary and
the `connected_servers` list are both empty, whatever pattern of per-client
`disconnect` exceptions occurred (each is caught per client and only logged,
so the clearing always happens). -/
theorem disconnect_all_clears (dr : DisconnectOracle) (st : MCPManager) :
    (st.disconnect_all dr).clients = [] ∧
    (st.disconnect_all dr).connected_servers = [] :=
  ⟨rfl, rfl⟩

/-- C1: whenever `research` returns normally, the write trace has grown by
exactly one file — `report.md` joined onto the given output directory — and
the returned string is that path. -/
theorem research_writes_single_report
    (ag : DeepResearchAgent) (w : World) (files : List String)
    (query output_dir task_id : String) (mkdirs : Except String Unit)
    (stopB : Bool) (setup : Except String Unit)
    (runResult llmResponse : Except String String) (p : String)
    (hok : (ag.research w files query output_dir task_id mkdirs stopB setup
        runResult llmResponse).result = .ok p) :
    p = pathJoin output_dir REPORT_FILENAME ∧
    (ag.research w files query output_dir task_id mkdirs stopB setup
        runResult llmResponse).files =
      files ++ [pathJoin output_dir REPORT_FILENAME] := by
  cases mkdirs with
  | error e => simp [DeepResearchAgent.research] at hok
  | ok _ =>
    refine ⟨?_, ?_⟩
    · simpa [DeepResearchAgent.research, write_file_content] using hok.symm
    · simp [DeepResearchAgent.research, write_file_content]

/-- Witness for C1: a concrete successful run writes `out/report.md` and
returns that path. -/
theorem research_writes_single_report_witness :
    pathJoin "out" REPORT_FILENAME = pathJoin "out" REPORT_FILENAME ∧
    (DeepResearchAgent.init.research {} [] "topic" "out" "research_1"
        (.ok ()) false (.ok ()) (.ok "data") (.ok "report text")).files =
      [] ++ [pathJoin "out" REPORT_FILENAME] :=
  research_writes_single_report DeepResearchAgent.init {} [] "topic" "out"
    "research_1" (.ok ()) false (.ok ()) (.ok "data") (.ok "report text")
    (pathJoin "out" REPORT_FILENAME) rfl

/-- C6: each boundary converts exceptions instead of propagating them:
an exception while constructing the browser agent, and an exception from
running it, both become a returned dictionary with status `failed` and an
`Error: ...` result string; an exception in the LLM call makes
`_generate_report` return an error report embedding the error and the raw
research data; and an exception inside `research`'s own try body
(`os.makedirs`) is re-raised to the caller. -/
theorem deep_research_error_conversion :
    (∀ (w : World) (q : String) (eid : Nat) (e : String)
       (runResult : Except String String),
       run_single_browser_task w q eid (.error e) runResult =
         { query := q, result := some ("Error: " ++ e), status := "failed" }) ∧
    (∀ (w : World) (q : String) (eid : Nat) (e : String),
       w.eventIsSet eid = false →
       run_single_browser_task w q eid (.ok ()) (.error e) =
         { query := q, result := some ("Error: " ++ e), status := "failed" }) ∧
    (∀ (d : Option String) (e : String), ∃ pre mid,
       DeepResearchAgent.generate_report d (.error e) =
         pre ++ e ++ mid ++ pyStr d) ∧
    (∀ (ag : DeepResearchAgent) (w : World) (files : List String)
       (query output_dir task_id e : String) (stopB : Bool)
       (setup : Except String Unit) (runResult llmResponse : Except String String),
       (ag.research w files query output_dir task_id (.error e) stopB setup
          runResult llmResponse).result = .error e) := by
  refine ⟨fun w q eid e runResult => rfl, ?_, ?_, fun _ _ _ _ _ _ _ _ _ _ _ => rfl⟩
  · intro w q eid e h
    simp [run_single_browser_task, h]
  · intro d e
    exact ⟨"# Research Report\n\n## Error\nFailed to generate report: ",
      "\n\n## Raw Data\n", by simp [DeepResearchAgent.generate_report,
        String.append_assoc]⟩

/-- Witness for C6: the second conjunct at a concrete input — a run
exception with an unset stop event yields the failed dictionary. -/
theorem deep_research_error_conversion_witness :
    run_single_browser_task ({} : World) "q" 0 (.ok ()) (.error "boom") =
      { query := "q", result := some ("Error: " ++ "boom"),
        status := "failed" } :=
  deep_research_error_conversion.2.1 {} "q" 0 "boom" rfl

/-- C2, evaluated at the failing scenario: a fresh agent runs the browser
research step and another thread calls `stop()` after the task's local stop
event has been created but before the task's stop check.  `stop()` flags the
agent as stopped, yet the event the task checks stays unset — `research`
never assigns `self.stop_event`, and the event passed to
`run_single_browser_task` is a fresh local one `stop()` does not know — so
the task runs to completion instead of returning `cancelled`. -/
theorem deep_research_stop_unobserved :
    ((DeepResearchAgent.init.stop (({} : World).newEvent.2)).1.stopped
        = true) ∧
    ((DeepResearchAgent.init.stop (({} : World).newEvent.2)).2.eventIsSet
        (({} : World).newEvent.1) = false) ∧
    ((run_single_browser_task
        (DeepResearchAgent.init.stop (({} : World).newEvent.2)).2
        "Research and gather comprehensive information about: topic"
        (({} : World).newEvent.1) (.ok ()) (.ok "findings")).status
        = "completed") ∧
    ((DeepResearchAgent.init.conduct_browser_research ({} : World) "topic"
        true (.ok ()) (.ok "findings")).1 = some "findings") :=
  ⟨rfl, rfl, rfl, rfl⟩

/-- Witness for C8: `openai` given both an explicit `base_url` keyword and an
explicit `api_key` keyword (with conflicting environment values present)
constructs the call from the keywords. -/
theorem get_llm_model_kwarg_precedence_witness :
    (∀ u, (ChatModelCall.mk "ChatOpenAI" "gpt-4o" (some "https://kw.example")
        (some "kwkey")).base_url = some u →
      u = pyOrOpt (some "https://kw.example")
        (endpoint_env_or_default (fun _ => some "https://env.example") "openai")) ∧
    (∀ k, (ChatModelCall.mk "ChatOpenAI" "gpt-4o" (some "https://kw.example")
        (some "kwkey")).api_key = some k →
      k = pyOr ((some "kwkey" : Option String).getD "")
        (getenvD (fun _ => some "https://env.example")
          (pyUpper "openai" ++ "_API_KEY") "")) :=
  get_llm_model_kwarg_precedence (fun _ => none)
    (fun _ => some "https://env.example") "openai"
    { api_key := some "kwkey", base_url := some "https://kw.example" }
    (ChatModelCall.mk "ChatOpenAI" "gpt-4o" (some "https://kw.example")
      (some "kwkey"))
    (by decide) rfl

/-- The connection-loop body appends the server name exactly when the entry
connects. -/
theorem connectStep_connected_servers (co : ConnectOracle) (acc : MCPManager)
    (p : String × ServerConfig) :
    (connectStep co acc p).connected_servers =
      if entryConnects co p then acc.connected_servers ++ [p.1]
      else acc.connected_servers := by
  rcases p with ⟨n, sc⟩
  rcases hcmd : sc.command with _ | c
  · simp [connectStep, entryConnects, optTruthy, hcmd]
  · by_cases hc : c = "" <;> by_cases hco : co n sc <;>
      simp [connectStep, entryConnects, optTruthy, hcmd, hc, hco]

/-- The connection-loop body stores the client handle exactly when the entry
connects. -/
theorem connectStep_clients (co : ConnectOracle) (acc : MCPManager)
    (p : String × ServerConfig) :
    (connectStep co acc p).clients =
      if entryConnects co p then
        dictSet p.1 ⟨p.1, p.2.command.getD "", p.2.args, p.2.env⟩ acc.clients
      else acc.clients := by
  rcases p with ⟨n, sc⟩
  rcases hcmd : sc.command with _ | c
  · simp [connectStep, entryConnects, optTruthy, hcmd]
  · by_cases hc : c = "" <;> by_cases hco : co n sc <;>
      simp [connectStep, entryConnects, optTruthy, hcmd, hc, hco]

/-- After the connection loop, `connected_servers` has gained exactly the
names of the entries that connected, in order. -/
theorem foldl_connectStep_connected (co : ConnectOracle)
    (l : List (String × ServerConfig)) (acc : MCPManager) :
    (l.foldl (connectStep co) acc).connected_servers =
      acc.connected_servers ++ (l.filter (entryConnects co)).map Prod.fst := by
  induction l generalizing acc with
  | nil => simp
  | cons p t ih =>
    rw [List.foldl_cons, ih]
    by_cases h : entryConnects co p <;>
      simp [connectStep_connected_servers, h, List.filter_cons]

/-- Lookup after a Python dict assignment: the key hits either the new
binding or an old one. -/
theorem dictGet_dictSet_isSome {α : Type} (k n : String) (v : α)
    (d : List (String × α)) :
    (dictGet n (dictSet k v d)).isSome = true ↔
      n = k ∨ (dictGet n d).isSome = true := by
  induction d with
  | nil =>
    by_cases h : k = n
    · subst h; simp [dictSet, dictGet]
    · have h2 : ¬(n = k) := fun hh => h hh.symm
      simp [dictSet, dictGet, h, h2]
  | cons p t ih =>
    rcases p with ⟨k2, v2⟩
    by_cases h2 : k2 = k
    · subst h2
      by_cases hn : k2 = n
      · subst hn; simp [dictSet, dictGet]
      · have hn2 : ¬(n = k2) := fun hh => hn hh.symm
        simp [dictSet, dictGet, hn, hn2]
    · by_cases hn : k2 = n
      · subst hn; simp [dictSet, dictGet, h2]
      · simp [dictSet, dictGet, h2, hn, ih]

/-- The connection-loop body preserves the C10 invariant. -/
theorem connectStep_inv (co : ConnectOracle) (acc : MCPManager)
    (p : String × ServerConfig) (h : managerInv acc) :
    managerInv (connectStep co acc p) := by
  intro n
  by_cases he : entryConnects co p
  · rw [connectStep_connected_servers, connectStep_clients, if_pos he,
      if_pos he, dictGet_dictSet_isSome]
    simp [h n, or_comm]
  · rw [connectStep_connected_servers, connectStep_clients, if_neg he,
      if_neg he]
    exact h n

/-- The connection loop preserves the C10 invariant. -/
theorem foldl_connectStep_inv (co : ConnectOracle)
    (l : List (String × ServerConfig)) (acc : MCPManager)
    (h : managerInv acc) : managerInv (l.foldl (connectStep co) acc) := by
  induction l generalizing acc with
  | nil => exact h
  | cons p t ih => exact ih _ (connectStep_inv co acc p h)

/-- C10: every `MCPManager` operation preserves the invariant that
`connected_servers` holds exactly the keys of `clients` — `__init__`
establishes it, `setup_mcp_servers` preserves it (a server name is appended
only together with storing its client handle, from a state cleared by
`disconnect_all`), `disconnect_all` clears both together — and under it
`is_connected(name)` agrees with the presence of a client handle for
`name`. -/
theorem mcp_manager_inv_preserved (co : ConnectOracle) (dr : DisconnectOracle)
    (st : MCPManager) (cfg : MCPConfig) (name : String)
    (h : managerInv st) :
    managerInv MCPManager.init ∧
    managerInv (st.setup_mcp_servers co dr cfg).2 ∧
    managerInv (st.disconnect_all dr) ∧
    (st.is_connected name = true ↔ (dictGet name st.clients).isSome = true) := by
  refine ⟨fun n => by simp [MCPManager.init, dictGet],
    ?_, fun n => by simp [MCPManager.disconnect_all, dictGet], ?_⟩
  · rw [MCPManager.setup_mcp_servers]
    by_cases hf : cfg.pyFalsy
    · simpa [hf] using h
    · simp only [hf, Bool.false_eq_true, if_false]
      exact foldl_connectStep_inv co _ _
        (fun n => by simp [MCPManager.disconnect_all, dictGet])
  · rw [← h name]
    simp [MCPManager.is_connected]

/-- Witness for C10: from the empty manager, after a one-server setup that
connects, the invariant still holds and `is_connected` agrees with the
client table. -/
theorem mcp_manager_inv_preserved_witness :
    managerInv MCPManager.init ∧
    managerInv ((MCPManager.init).setup_mcp_servers (fun _ _ => true)
      (fun _ => false) (.flat [("srv", { command := some "npx" })])).2 ∧
    managerInv ((MCPManager.init).disconnect_all (fun _ => false)) ∧
    ((MCPManager.init).is_connected "srv" = true ↔
      (dictGet "srv" (MCPManager.init).clients).isSome = true) :=
  mcp_manager_inv_preserved (fun _ _ => true) (fun _ => false)
    MCPManager.init (.flat [("srv", { command := some "npx" })]) "srv"
    (fun n => by simp [MCPManager.init, dictGet])

/-- C4: `setup_mcp_servers` returns `False` on a Python-falsy (empty)
configuration and when every server entry fails to connect (or is skipped
for lack of a command); it returns `True` with a non-empty
`connected_servers` as soon as one entry connects; and a configuration
nested under `mcpServers` yields the same return value as the flat
dictionary of the same entries — and the identical final state whenever the
entries are non-empty (an empty flat dictionary returns early before the
clearing, an empty nested one clears first). -/
theorem setup_mcp_servers_result (co : ConnectOracle) (dr : DisconnectOracle)
    (st : MCPManager) (cfg : MCPConfig) :
    (cfg.pyFalsy = true → st.setup_mcp_servers co dr cfg = (false, st)) ∧
    ((∀ p ∈ cfg.servers, entryConnects co p = false) →
      (st.setup_mcp_servers co dr cfg).1 = false) ∧
    ((∃ p ∈ cfg.servers, entryConnects co p = true) →
      (st.setup_mcp_servers co dr cfg).1 = true ∧
      (st.setup_mcp_servers co dr cfg).2.connected_servers ≠ []) ∧
    (∀ s, (MCPManager.setup_mcp_servers co dr st (.wrapped s)).1 =
        (MCPManager.setup_mcp_servers co dr st (.flat s)).1 ∧
      (s ≠ [] → MCPManager.setup_mcp_servers co dr st (.wrapped s) =
        MCPManager.setup_mcp_servers co dr st (.flat s))) := by
  refine ⟨fun hf => by simp [MCPManager.setup_mcp_servers, hf], ?_, ?_, ?_⟩
  · intro hall
    by_cases hf : cfg.pyFalsy
    · simp [MCPManager.setup_mcp_servers, hf]
    · have hfil : cfg.servers.filter (entryConnects co) = [] :=
        List.filter_eq_nil_iff.mpr (by intro a ha; simp [hall a ha])
      simp [MCPManager.setup_mcp_servers, hf, foldl_connectStep_connected,
        MCPManager.disconnect_all, hfil]
  · rintro ⟨p, hp, hpc⟩
    have hfil : p ∈ cfg.servers.filter (entryConnects co) :=
      List.mem_filter.mpr ⟨hp, hpc⟩
    have hne : (cfg.servers.filter (entryConnects co)).map Prod.fst ≠ [] :=
      List.ne_nil_of_mem (List.mem_map_of_mem _ hfil)
    have hf : cfg.pyFalsy = false := by
      cases cfg with
      | flat s =>
        simpa [MCPConfig.pyFalsy, MCPConfig.servers, List.isEmpty_iff]
          using List.ne_nil_of_mem hp
      | wrapped s => rfl
    have hconn : (st.setup_mcp_servers co dr cfg).2.connected_servers =
        (cfg.servers.filter (entryConnects co)).map Prod.fst := by
      simp [MCPManager.setup_mcp_servers, hf, MCPManager.disconnect_all,
        foldl_connectStep_connected]
    have hfst : (st.setup_mcp_servers co dr cfg).1 = decide
        (0 < (st.setup_mcp_servers co dr cfg).2.connected_servers.length) := by
      simp [MCPManager.setup_mcp_servers, hf]
    refine ⟨?_, by rw [hconn]; exact hne⟩
    rw [hfst, decide_eq_true_iff, hconn]
    exact List.length_pos.mpr hne
  · intro s
    cases s with
    | nil => exact ⟨rfl, fun hs => absurd rfl hs⟩
    | cons p t => exact ⟨rfl, fun _ => rfl⟩

/-- Witness for C4: a one-server configuration that connects yields `True`
and a non-empty `connected_servers`. -/
theorem setup_mcp_servers_result_witness :
    ((MCPManager.init).setup_mcp_servers (fun _ _ => true) (fun _ => false)
      (.flat [("srv", { command := some "npx" })])).1 = true ∧
    ((MCPManager.init).setup_mcp_servers (fun _ _ => true) (fun _ => false)
      (.flat [("srv", { command := some "npx" })])).2.connected_servers
      ≠ [] :=
  (setup_mcp_servers_result (fun _ _ => true) (fun _ => false) MCPManager.init
      (.flat [("srv", { command := some "npx" })])).2.2.1
    ⟨("srv", { command := some "npx" }), by decide, rfl⟩

/-- Names already on the controller survive the registration loop. -/
theorem registerTools_foldl_mem (ct : ClientToolsOracle) (rr : String → Bool)
    (tf : Option (List String)) (l : List (String × MCPClient))
    (acc : Nat × List String) (n : String) (h : n ∈ acc.2) :
    n ∈ (l.foldl (registerToolsStep ct rr tf) acc).2 := by
  induction l generalizing acc with
  | nil => exact h
  | cons p t ih =>
    refine ih _ ?_
    by_cases hr : rr p.1 <;> simp [registerToolsStep, hr, h]

/-- Every name the registration loop adds carries its server's
`mcp_{server}_` prefix. -/
theorem registerTools_foldl_names (ct : ClientToolsOracle)
    (rr : String → Bool) (tf : Option (List String))
    (l : List (String × MCPClient)) (acc : Nat × List String) :
    ∀ n ∈ (l.foldl (registerToolsStep ct rr tf) acc).2,
      n ∈ acc.2 ∨ ∃ p ∈ l, ∃ t ∈ ct p.2 tf,
        n = "mcp_" ++ p.1 ++ "_" ++ t := by
  induction l generalizing acc with
  | nil => exact fun n h => .inl h
  | cons p l2 ih =>
    intro n hn
    rcases ih _ n hn with h | ⟨q, hq, tl, htl, rfl⟩
    · by_cases hr : rr p.1
      · simp only [registerToolsStep, hr, if_true] at h
        exact .inl h
      · simp only [registerToolsStep, hr, Bool.false_eq_true, if_false,
          List.mem_append, List.mem_map] at h
        rcases h with h | ⟨tl, htl, rfl⟩
        · exact .inl h
        · exact .inr ⟨p, List.mem_cons_self p l2, tl, htl, rfl⟩
    · exact .inr ⟨q, List.mem_cons_of_mem p hq, tl, htl, rfl⟩

/-- Every tool of a server whose registration call does not raise ends up on
the controller under its prefixed name. -/
theorem registerTools_foldl_registers (ct : ClientToolsOracle)
    (rr : String → Bool) (tf : Option (List String))
    (l : List (String × MCPClient)) (acc : Nat × List String)
    (p : String × MCPClient) (hp : p ∈ l) (hr : rr p.1 = false)
    (t : String) (ht : t ∈ ct p.2 tf) :
    ("mcp_" ++ p.1 ++ "_" ++ t) ∈
      (l.foldl (registerToolsStep ct rr tf) acc).2 := by
  induction l generalizing acc with
  | nil => cases hp
  | cons q l2 ih =>
    rcases List.mem_cons.mp hp with rfl | hp2
    · refine registerTools_foldl_mem ct rr tf l2 _ _ ?_
      simp only [registerToolsStep, hr, Bool.false_eq_true, if_false,
        List.mem_append, List.mem_map]
      exact .inr ⟨t, ht, rfl⟩
    · exact ih _ hp2

/-- Lookup after the per-server tool loop of `register_mcp_tools`: a key is
present iff it is one of the server's namespaced tool names or was present
before. -/
theorem mcpActionInsert_foldl_isSome (s : String) (tools : List MCPTool)
    (acts : List (String × RegisteredAction)) (k : String) :
    (dictGet k (tools.foldl (mcpActionInsert s) acts)).isSome = true ↔
      (∃ t ∈ tools, k = "mcp." ++ s ++ "." ++ t.name) ∨
        (dictGet k acts).isSome = true := by
  induction tools generalizing acts with
  | nil => simp
  | cons t ts ih =>
    rw [List.foldl_cons, ih]
    simp only [mcpActionInsert]
    rw [dictGet_dictSet_isSome]
    constructor
    · rintro (⟨t2, ht2, rfl⟩ | hk | h)
      · exact .inl ⟨t2, List.mem_cons_of_mem t ht2, rfl⟩
      · exact .inl ⟨t, List.mem_cons_self t ts, hk⟩
      · exact .inr h
    · rintro (⟨t2, ht2, hk⟩ | h)
      · rcases List.mem_cons.mp ht2 with rfl | ht3
        · exact .inr (.inl hk)
        · exact .inl ⟨t2, ht3, hk⟩
      · exact .inr (.inr h)

/-- Lookup after `register_mcp_tools`: a key is present iff it is the
namespaced `mcp.{server}.{tool}` name of some tool of some server, or was
present before. -/
theorem register_mcp_tools_isSome (m : List (String × List MCPTool))
    (actions : List (String × RegisteredAction)) (k : String) :
    (dictGet k (register_mcp_tools (some m) actions)).isSome = true ↔
      (∃ p ∈ m, ∃ t ∈ p.2, k = "mcp." ++ p.1 ++ "." ++ t.name) ∨
        (dictGet k actions).isSome = true := by
  rw [register_mcp_tools]
  induction m generalizing actions with
  | nil => simp
  | cons p ps ih =>
    rw [List.foldl_cons, ih, mcpActionInsert_foldl_isSome]
    constructor
    · rintro (⟨q, hq, tl, htl, rfl⟩ | ⟨tl, htl, rfl⟩ | h)
      · exact .inl ⟨q, List.mem_cons_of_mem p hq, tl, htl, rfl⟩
      · exact .inl ⟨p, List.mem_cons_self p ps, tl, htl, rfl⟩
      · exact .inr h
    · rintro (⟨q, hq, tl, htl, hk⟩ | h)
      · rcases List.mem_cons.mp hq with rfl | hq2
        · exact .inr (.inl ⟨tl, htl, hk⟩)
        · exact .inl ⟨q, hq2, tl, htl, hk⟩
      · exact .inr (.inr h)

/-- C7: registered MCP tool action names are namespaced with their server.
`register_tools_to_controller` passes the prefix `mcp_{server_name}_`, so
every action name it adds to the controller is `mcp_{server}_{tool}` for a
stored server and one of its (filtered) tools, and every tool of a server
whose registration call does not raise appears under that name;
`CustomController.register_mcp_tools` stores tools into the action registry
exactly under the keys `mcp.{server}.{tool}`. -/
theorem mcp_tool_names_namespaced (ct : ClientToolsOracle)
    (rr : String → Bool) (st : MCPManager) (controller : List String)
    (tf : Option (List String)) (m : List (String × List MCPTool))
    (actions : List (String × RegisteredAction)) :
    (∀ n ∈ (MCPManager.register_tools_to_controller ct rr st controller tf).2,
       n ∈ controller ∨ ∃ p ∈ st.clients, ∃ t ∈ ct p.2 tf,
         n = "mcp_" ++ p.1 ++ "_" ++ t) ∧
    (∀ p ∈ st.clients, rr p.1 = false → ∀ t ∈ ct p.2 tf,
       ("mcp_" ++ p.1 ++ "_" ++ t) ∈
         (MCPManager.register_tools_to_controller ct rr st controller tf).2) ∧
    (∀ k, (dictGet k (register_mcp_tools (some m) actions)).isSome = true ↔
       (∃ p ∈ m, ∃ t ∈ p.2, k = "mcp." ++ p.1 ++ "." ++ t.name) ∨
         (dictGet k actions).isSome = true) :=
  ⟨fun n hn => registerTools_foldl_names ct rr tf st.clients (0, controller)
      n hn,
   fun p hp hr t ht => registerTools_foldl_registers ct rr tf st.clients
      (0, controller) p hp hr t ht,
   fun k => register_mcp_tools_isSome m actions k⟩

/-- Witness for C7: one server `srv` exposing one tool `toolA` — the
controller gains `mcp_srv_toolA`, and the registry key `mcp.srv.toolA` is
present. -/
theorem mcp_tool_names_namespaced_witness :
    ("mcp_srv_toolA" : String) ∈
      (MCPManager.register_tools_to_controller (fun _ _ => ["toolA"])
        (fun _ => false)
        { clients := [("srv", ⟨"srv", "npx", [], []⟩)],
          connected_servers := ["srv"] } [] none).2 ∧
    ((dictGet "mcp.srv.toolA"
        (register_mcp_tools (some [("srv", [⟨"toolA", "d"⟩])]) [])).isSome
      = true) :=
  ⟨(mcp_tool_names_namespaced (fun _ _ => ["toolA"]) (fun _ => false)
      { clients := [("srv", ⟨"srv", "npx", [], []⟩)],
        connected_servers := ["srv"] } [] none [("srv", [⟨"toolA", "d"⟩])]
      []).2.1 ("srv", ⟨"srv", "npx", [], []⟩) (by decide) rfl "toolA"
      (by decide),
   (mcp_tool_names_namespaced (fun _ _ => ["toolA"]) (fun _ => false)
      { clients := [("srv", ⟨"srv", "npx", [], []⟩)],
        connected_servers := ["srv"] } [] none [("srv", [⟨"toolA", "d"⟩])]
      []).2.2 "mcp.srv.toolA" |>.mpr
      (.inl ⟨("srv", [⟨"toolA", "d"⟩]), by decide, ⟨"toolA", "d"⟩, by decide,
        by decide⟩)⟩

end WebUI
